import Mathlib

/-!
Verification of the taqyon desktop application shell template.

The development shallowly embeds the decision logic of the repository:
the bridge object (src/templates/src/backendobject.cpp), the frontend URL
resolution (src/templates/src/app/app_setup.cpp, resolveFrontendUrl, and the
equivalent inline code in src/templates/src/main.cpp), the navigation policy
(src/templates/src/app/mywebpage.cpp, MyWebPage::acceptNavigationRequest) and
the context menu construction (src/templates/src/mywebview.cpp,
MyWebView::contextMenuEvent).

Machine integers: the C++ member m_count has type int.  The specification
treats the counter as an unbounded integer and leaves overflow behaviour
explicitly unspecified (signed overflow is undefined behaviour in C++), so
the embedding uses the mathematical integers.
-/

namespace Taqyon

/-! ## Bridge object (backendobject.cpp) -/

/-- State of the BackendObject: the two member fields m_message and m_count. -/
structure BackendState where
  message : String
  count : Int
deriving DecidableEq, Repr

/-- Signals emitted by the BackendObject. -/
inductive BEvent where
  | messageChanged (msg : String)
  | countChanged (count : Int)
  | sendToFrontend (text : String)
deriving DecidableEq, Repr

/-- Embedding of BackendObject::BackendObject: the constructor initialises
m_message to "Hello from C++ backend!" and m_count to 0. -/
def initBackendState : BackendState :=
  ⟨"Hello from C++ backend!", 0⟩

/-- Embedding of BackendObject::setMessage: assigns and emits messageChanged
only when the new value differs from m_message. -/
def setMessage (s : BackendState) (msg : String) : BackendState × List BEvent :=
  if s.message ≠ msg then
    (⟨msg, s.count⟩, [BEvent.messageChanged msg])
  else
    (s, [])

/-- Embedding of BackendObject::setCount: assigns and emits countChanged only
when the new value differs from m_count.  The unconditional qInfo log line is
diagnostic output, not a signal, and is not part of the event list. -/
def setCount (s : BackendState) (count : Int) : BackendState × List BEvent :=
  if s.count ≠ count then
    (⟨s.message, count⟩, [BEvent.countChanged count])
  else
    (s, [])

/-- Embedding of BackendObject::incrementCount: calls setCount(m_count + 1). -/
def incrementCount (s : BackendState) : BackendState × List BEvent :=
  setCount s (s.count + 1)

/-- Embedding of BackendObject::sendToBackend: emits sendToFrontend with
"Backend received: %1" where %1 is the argument text; the state is not
touched. -/
def sendToBackend (s : BackendState) (text : String) : BackendState × List BEvent :=
  (s, [BEvent.sendToFrontend ("Backend received: " ++ text)])

/-- Calls reachable from the web frontend through the bridge channel: the two
writable properties and the two invocable slots. -/
inductive BridgeCall where
  | callSetMessage (msg : String)
  | callSetCount (count : Int)
  | callIncrement
  | callSend (text : String)
deriving DecidableEq, Repr

/-- Applies one bridge call to a state, returning the new state and the
emitted events. -/
def stepBridge (s : BackendState) : BridgeCall → BackendState × List BEvent
  | BridgeCall.callSetMessage msg => setMessage s msg
  | BridgeCall.callSetCount n => setCount s n
  | BridgeCall.callIncrement => incrementCount s
  | BridgeCall.callSend text => sendToBackend s text

/-- Runs a sequence of bridge calls from a state. -/
def runBridge (s : BackendState) : List BridgeCall → BackendState
  | [] => s
  | c :: cs => runBridge (stepBridge s c).1 cs

/-! ## Frontend URL resolution (app_setup.cpp resolveFrontendUrl, main.cpp) -/

/-- Filesystem view used by the resolution logic: which directories exist
(QDir::exists) and which files exist (QFileInfo::exists). -/
structure FS where
  dirExists : String → Bool
  fileExists : String → Bool

/-- Command line options relevant to frontend resolution: the value of
--dev-server when the flag is set, and the value of --frontend-path when that
flag is set. -/
structure ResolveOptions where
  devServer : Option String
  frontendPath : Option String
deriving DecidableEq, Repr

/-- Outcome of resolveFrontendUrl.  The two failure constructors stand for
the two QUrl() returns: the qCritical branch "Could not find frontend
directory in any of the expected locations." and the qCritical branch
"index.html not found at: ...". -/
inductive ResolveResult where
  | remote (url : String)
  | localFile (path : String)
  | notFoundDir
  | missingIndexHtml
deriving DecidableEq, Repr

/-- Embedding of the tail of resolveFrontendUrl (lines 93 to 101): the chosen
directory is required to contain an entry file named index.html; on success a
local file URL at that entry file is returned. -/
def checkIndexHtml (fs : FS) (dir : String) : ResolveResult :=
  if fs.fileExists (dir ++ "/index.html") then
    ResolveResult.localFile (dir ++ "/index.html")
  else
    ResolveResult.missingIndexHtml

/-- The five fallback probe locations of resolveFrontendUrl (possiblePaths,
lines 68 to 74), tried when the primary location does not exist. -/
def possiblePaths (appDir cwd : String) : List String :=
  [appDir ++ "/frontend/dist",
   cwd ++ "/frontend/dist",
   cwd ++ "/../frontend/dist",
   cwd ++ "/../../frontend/dist",
   cwd ++ "/../../../frontend/dist"]

/-- All six probe locations in the order the code consults them: the primary
location appDir ++ "/../frontend/dist" followed by possiblePaths. -/
def frontendCandidates (appDir cwd : String) : List String :=
  (appDir ++ "/../frontend/dist") :: possiblePaths appDir cwd

/-- Embedding of resolveFrontendUrl (app_setup.cpp lines 52 to 102; the code
inlined in main.cpp lines 162 to 227 is identical logic).  appDir is
QCoreApplication::applicationDirPath() and cwd is QDir::currentPath(). -/
def resolveFrontendUrl (opts : ResolveOptions) (appDir cwd : String)
    (fs : FS) : ResolveResult :=
  match opts.devServer with
  | some url => ResolveResult.remote url
  | none =>
    match opts.frontendPath with
    | some p => checkIndexHtml fs p
    | none =>
      let primary := appDir ++ "/../frontend/dist"
      if fs.dirExists primary then
        checkIndexHtml fs primary
      else
        match (possiblePaths appDir cwd).find? fs.dirExists with
        | some p => checkIndexHtml fs p
        | none => ResolveResult.notFoundDir

/-- Embedding of the exit decision in main (app/main.cpp lines 75 to 78 and
main.cpp lines 205 to 222): the process returns exit code 1 exactly when
resolution produced an invalid QUrl, that is, one of the two failure
results; otherwise startup proceeds into the event loop. -/
def mainExitsWithOne (opts : ResolveOptions) (appDir cwd : String)
    (fs : FS) : Bool :=
  match resolveFrontendUrl opts appDir cwd fs with
  | ResolveResult.notFoundDir => true
  | ResolveResult.missingIndexHtml => true
  | _ => false

/-! ## Navigation policy (mywebpage.cpp MyWebPage::acceptNavigationRequest) -/

/-- QWebEnginePage::NavigationType values. -/
inductive NavigationType where
  | linkClicked
  | typed
  | formSubmitted
  | backForward
  | reload
  | redirect
  | other
deriving DecidableEq, Repr

/-- Decision of acceptNavigationRequest: either the navigation is intercepted
(the URL is dispatched to QDesktopServices::openUrl and the function returns
false, suppressing the in-app navigation) or the request is forwarded to the
base class and proceeds inside the embedded renderer. -/
inductive NavDecision where
  | interceptExternal
  | proceedInRenderer
deriving DecidableEq, Repr

/-- Embedding of MyWebPage::acceptNavigationRequest (mywebpage.cpp lines 10
to 20).  scheme is url.scheme(). -/
def acceptNavigationRequest (scheme : String) (ty : NavigationType)
    (isMainFrame : Bool) : NavDecision :=
  if isMainFrame && (ty == NavigationType.linkClicked) then
    if scheme == "http" || scheme == "https" then
      NavDecision.interceptExternal
    else
      NavDecision.proceedInRenderer
  else
    NavDecision.proceedInRenderer

/-! ## Context menu construction (mywebview.cpp MyWebView::contextMenuEvent) -/

/-- Renderer capability flags consulted by the context menu code: whether the
Back, Forward, Reload, ViewSource and InspectElement page actions are enabled,
the link URL under the cursor (empty when absent) and the selected text (empty
when absent). -/
structure MenuCaps where
  canBack : Bool
  canForward : Bool
  canReload : Bool
  linkUrl : String
  selectedText : String
  canViewSource : Bool
  canInspect : Bool
deriving DecidableEq, Repr

/-- Entries of the constructed context menu. -/
inductive MenuEntry where
  | back
  | forward
  | reload
  | openLinkExternal (url : String)
  | copyText (text : String)
  | viewSource
  | inspectElement
  | separator
deriving DecidableEq, Repr

/-- Embedding of the menu construction in MyWebView::contextMenuEvent
(mywebview.cpp lines 27 to 82), kept in the same sequential shape as the
code: conditional addAction calls, the menu.isEmpty() tests and the separator
conditions are taken verbatim from the source. -/
def buildContextMenu (c : MenuCaps) : List MenuEntry :=
  let menu : List MenuEntry := []
  let menu := if c.canBack then menu ++ [MenuEntry.back] else menu
  let menu := if c.canForward then menu ++ [MenuEntry.forward] else menu
  let menu := if c.canReload then menu ++ [MenuEntry.reload] else menu
  let hasStandardActions := !menu.isEmpty
  let willHaveCustomLinkAction := !c.linkUrl.isEmpty
  let willHaveCustomCopyAction := !c.selectedText.isEmpty
  let menu :=
    if hasStandardActions && (willHaveCustomLinkAction || willHaveCustomCopyAction) then
      menu ++ [MenuEntry.separator]
    else menu
  let menu :=
    if willHaveCustomLinkAction then menu ++ [MenuEntry.openLinkExternal c.linkUrl] else menu
  let menu :=
    if willHaveCustomCopyAction then menu ++ [MenuEntry.copyText c.selectedText] else menu
  let menu :=
    if c.canViewSource then
      (if !menu.isEmpty &&
          (willHaveCustomLinkAction || willHaveCustomCopyAction || hasStandardActions) then
        menu ++ [MenuEntry.separator]
      else menu) ++ [MenuEntry.viewSource]
    else menu
  let menu :=
    if c.canInspect then
      (if !menu.isEmpty &&
          (willHaveCustomLinkAction || willHaveCustomCopyAction || hasStandardActions ||
            c.canViewSource) then
        menu ++ [MenuEntry.separator]
      else menu) ++ [MenuEntry.inspectElement]
    else menu
  menu

/-! ## Theorems for the bridge object claims -/

/-- Claim C5, counterexample: the claim asserts that calling setCount(5)
twice in a row from ANY state triggers exactly one notification in total,
but from a state whose count is already 5 both calls are no-ops and zero
notifications are emitted in total. -/
theorem c5_counterexample :
    ((setCount ⟨"x", 5⟩ 5).2 ++ (setCount (setCount ⟨"x", 5⟩ 5).1 5).2).length = 0 ∧
    ¬ ((setCount ⟨"x", 5⟩ 5).2 ++ (setCount (setCount ⟨"x", 5⟩ 5).1 5).2).length = 1 := by
  constructor <;> simp [setCount]

/-- Claim C5 (amended): setCount emits exactly one countChanged notification
when the argument differs from the current count and none when it is equal;
setMessage emits exactly one messageChanged notification when the argument
differs from the current message and none when it is equal; and calling
setCount(5) twice in a row from any state whose count differs from 5 triggers
exactly one notification in total. -/
theorem c5_conditional_notification (s : BackendState) (n : Int) (m : String) :
    (s.count ≠ n → (setCount s n).2 = [BEvent.countChanged n]) ∧
    (s.count = n → (setCount s n).2 = []) ∧
    (s.message ≠ m → (setMessage s m).2 = [BEvent.messageChanged m]) ∧
    (s.message = m → (setMessage s m).2 = []) ∧
    (s.count ≠ 5 →
      ((setCount s 5).2 ++ (setCount (setCount s 5).1 5).2).length = 1) := by
  refine ⟨?_, ?_, ?_, ?_, ?_⟩ <;> intro h <;> simp [setCount, setMessage, h]

/-- Claim C5 witness: from count 0, the first setCount 5 notifies and the
second is silent, one notification in total; a no-op setMessage is silent. -/
theorem c5_conditional_notification_witness :
    ((setCount ⟨"a", 0⟩ 5).2 ++ (setCount (setCount ⟨"a", 0⟩ 5).1 5).2).length = 1 ∧
    (setMessage ⟨"a", 0⟩ "a").2 = [] := by
  constructor
  · exact (c5_conditional_notification ⟨"a", 0⟩ 5 "a").2.2.2.2 (by decide)
  · exact (c5_conditional_notification ⟨"a", 0⟩ 5 "a").2.2.2.1 rfl

/-- Claim C6: incrementCount is the call setCount(m_count + 1), so it
produces the same state and the same notifications as setCount at the
successor of the current count; in particular from count 5 it yields count 6
and exactly one countChanged notification. -/
theorem c6_increment_is_setCount :
    (∀ s : BackendState, incrementCount s = setCount s (s.count + 1)) ∧
    (∀ m : String, (incrementCount ⟨m, 5⟩).1.count = 6 ∧
      (incrementCount ⟨m, 5⟩).2 = [BEvent.countChanged 6]) := by
  refine ⟨fun s => rfl, fun m => ?_⟩
  simp [incrementCount, setCount]

/-- Claim C7: sendToBackend leaves the message and count fields unchanged and
emits exactly one sendToFrontend notification carrying the string
"Backend received: " followed by the argument text. -/
theorem c7_sendToBackend_frame (s : BackendState) (t : String) :
    (sendToBackend s t).1 = s ∧
    (sendToBackend s t).2 = [BEvent.sendToFrontend ("Backend received: " ++ t)] :=
  ⟨rfl, rfl⟩

/-- Claim C8, counterexample: the count property is writable from the web
frontend and setCount stores any integer without clamping, so a single
setCount call with argument -1 reaches a state with negative count. -/
theorem c8_counterexample :
    (runBridge initBackendState [BridgeCall.callSetCount (-1)]).count < 0 := by
  simp [runBridge, stepBridge, setCount, initBackendState]

/-- Helper for the amended C8: nonnegativity of the count is preserved by any
call sequence whose setCount arguments are all nonnegative. -/
theorem runBridge_count_nonneg (ops : List BridgeCall) :
    ∀ s : BackendState, 0 ≤ s.count →
      (∀ n : Int, BridgeCall.callSetCount n ∈ ops → 0 ≤ n) →
      0 ≤ (runBridge s ops).count := by
  induction ops with
  | nil => intro s hs _; exact hs
  | cons c cs ih =>
    intro s hs hops
    have hcs : ∀ n : Int, BridgeCall.callSetCount n ∈ cs → 0 ≤ n := by
      intro n hn; exact hops n (List.mem_cons_of_mem c hn)
    cases c with
    | callSetMessage msg =>
      refine ih _ ?_ hcs
      simp only [stepBridge, setMessage]
      split <;> exact hs
    | callSetCount n =>
      refine ih _ ?_ hcs
      have hn : 0 ≤ n := hops n (List.mem_cons_self _ _)
      simp only [stepBridge, setCount]
      split <;> simp_all
    | callIncrement =>
      refine ih _ ?_ hcs
      simp only [stepBridge, incrementCount, setCount]
      split <;> simp_all
      omega
    | callSend text => exact ih _ hs hcs

/-- Claim C8 (amended): starting from construction, every state reachable by
a sequence of bridge calls in which each setCount argument is nonnegative
satisfies count greater or equal 0; a frontend setCount call with a negative
argument breaks the bound, so the restriction on setCount arguments is
necessary. -/
theorem c8_count_nonneg (ops : List BridgeCall)
    (h : ∀ n : Int, BridgeCall.callSetCount n ∈ ops → 0 ≤ n) :
    0 ≤ (runBridge initBackendState ops).count :=
  runBridge_count_nonneg ops initBackendState (by simp [initBackendState]) h

/-- Claim C8 witness: an increment followed by setCount 3 keeps the count
nonnegative. -/
theorem c8_count_nonneg_witness :
    0 ≤ (runBridge initBackendState
          [BridgeCall.callIncrement, BridgeCall.callSetCount 3]).count := by
  refine c8_count_nonneg [BridgeCall.callIncrement, BridgeCall.callSetCount 3] ?_
  intro n hn
  simp only [List.mem_cons, List.mem_singleton] at hn
  rcases hn with h | h | h
  · exact absurd h (by simp)
  · cases h; omega
  · cases h

/-- Claim C10: a freshly constructed BackendObject has message
"Hello from C++ backend!" and count 0; the first setMessage or setCount call
with a different value emits its notification, while setCount 0 as the first
call emits none. -/
theorem c10_initial_state :
    initBackendState.message = "Hello from C++ backend!" ∧
    initBackendState.count = 0 ∧
    (∀ m : String, m ≠ "Hello from C++ backend!" →
      (setMessage initBackendState m).2 = [BEvent.messageChanged m]) ∧
    (∀ n : Int, n ≠ 0 →
      (setCount initBackendState n).2 = [BEvent.countChanged n]) ∧
    (setCount initBackendState 0).2 = [] := by
  refine ⟨rfl, rfl, ?_, ?_, by simp [setCount, initBackendState]⟩
  · intro m h
    have hne : ("Hello from C++ backend!" : String) ≠ m := fun e => h e.symm
    simp [setMessage, initBackendState, hne]
  · intro n h
    have hne : (0 : Int) ≠ n := fun e => h e.symm
    simp [setCount, initBackendState, hne]

/-- Claim C10 witness: the first setMessage with a fresh string and the first
setCount with 7 both notify. -/
theorem c10_initial_state_witness :
    (setMessage initBackendState "x").2 = [BEvent.messageChanged "x"] ∧
    (setCount initBackendState 7).2 = [BEvent.countChanged 7] :=
  ⟨c10_initial_state.2.2.1 "x" (by decide),
   c10_initial_state.2.2.2.1 7 (by decide)⟩

/-! ## Theorems for frontend resolution and navigation -/

/-- Claim C2: whenever the dev-server flag is set, resolution returns its
value verbatim as a remote URL, for every frontendPath value and every
filesystem, so no probing, no existence check and no reachability check can
influence the result and devServerUrl takes precedence over frontendPath. -/
theorem c2_devserver_precedence (url : String) (fp : Option String)
    (appDir cwd : String) (fs : FS) :
    resolveFrontendUrl ⟨some url, fp⟩ appDir cwd fs = ResolveResult.remote url :=
  rfl

/-- Claim C3: with frontendPath given and no dev server, the given path is
used directly as the candidate directory; the result is independent of
whether that directory exists, and resolution fails, making main exit with
code 1, exactly when the file frontendPath/index.html does not exist. -/
theorem c3_frontendPath_direct (p appDir cwd : String) (fs : FS) :
    (resolveFrontendUrl ⟨none, some p⟩ appDir cwd fs =
      if fs.fileExists (p ++ "/index.html") then
        ResolveResult.localFile (p ++ "/index.html")
      else ResolveResult.missingIndexHtml) ∧
    (∀ d d' : String → Bool,
      resolveFrontendUrl ⟨none, some p⟩ appDir cwd ⟨d, fs.fileExists⟩ =
        resolveFrontendUrl ⟨none, some p⟩ appDir cwd ⟨d', fs.fileExists⟩) ∧
    (mainExitsWithOne ⟨none, some p⟩ appDir cwd fs = true ↔
      fs.fileExists (p ++ "/index.html") = false) := by
  refine ⟨rfl, fun d d' => rfl, ?_⟩
  cases h : fs.fileExists (p ++ "/index.html") <;>
    simp [mainExitsWithOne, resolveFrontendUrl, checkIndexHtml, h]

/-- Helper: with neither flag set, the resolver inspects the six candidate
directories through List.find?, so the first existing one wins. -/
theorem resolve_probe_eq_find (appDir cwd : String) (fs : FS) :
    resolveFrontendUrl ⟨none, none⟩ appDir cwd fs =
      match (frontendCandidates appDir cwd).find? fs.dirExists with
      | some d => checkIndexHtml fs d
      | none => ResolveResult.notFoundDir := by
  simp only [resolveFrontendUrl, frontendCandidates]
  cases h : fs.dirExists (appDir ++ "/../frontend/dist")
  · rw [List.find?_cons_of_neg _ (by simp [h])]
    simp
  · rw [List.find?_cons_of_pos _ (by simp [h])]
    simp

/-- Helper: first-match characterisation of List.find? through getD. -/
theorem find?_eq_of_getD {α : Type} (p : α → Bool) (l : List α) (dflt : α)
    (i : Nat) (hi : i < l.length) (hp : p (l.getD i dflt) = true)
    (hfirst : ∀ j : Nat, j < i → p (l.getD j dflt) = false) :
    l.find? p = some (l.getD i dflt) := by
  induction l generalizing i with
  | nil => simp at hi
  | cons a l ih =>
    cases i with
    | zero =>
      simp only [List.getD_cons_zero] at hp ⊢
      rw [List.find?_cons_of_pos _ hp]
    | succ n =>
      have h0 : p a = false := by
        have := hfirst 0 (Nat.succ_pos n)
        simpa using this
      have htail : l.find? p = some (l.getD n dflt) := by
        refine ih n ?_ ?_ ?_
        · simpa using hi
        · simpa using hp
        · intro j hj
          have := hfirst (j + 1) (by omega)
          simpa using this
      simp only [List.getD_cons_succ]
      rw [List.find?_cons_of_neg _ (by simp [h0]), htail]

/-- Claim C1: with neither devServerUrl nor frontendPath given, resolution
probes the six candidate directories in the fixed order of
frontendCandidates; when candidate i exists and every earlier candidate does
not, the directory at index i is chosen and resolution continues with its
index.html check, so no later candidate matters; when none of the six exists,
resolution fails with the no-frontend-directory error. -/
theorem c1_probe_order (appDir cwd : String) (fs : FS) :
    (∀ i : Nat, i < 6 →
      fs.dirExists ((frontendCandidates appDir cwd).getD i "") = true →
      (∀ j : Nat, j < i →
        fs.dirExists ((frontendCandidates appDir cwd).getD j "") = false) →
      resolveFrontendUrl ⟨none, none⟩ appDir cwd fs =
        checkIndexHtml fs ((frontendCandidates appDir cwd).getD i "")) ∧
    ((∀ i : Nat, i < 6 →
        fs.dirExists ((frontendCandidates appDir cwd).getD i "") = false) →
      resolveFrontendUrl ⟨none, none⟩ appDir cwd fs = ResolveResult.notFoundDir) := by
  have hlen : (frontendCandidates appDir cwd).length = 6 := rfl
  constructor
  · intro i hi hex hfirst
    rw [resolve_probe_eq_find appDir cwd fs,
      find?_eq_of_getD fs.dirExists (frontendCandidates appDir cwd) "" i
        (by rw [hlen]; exact hi) hex hfirst]
  · intro hall
    have hnone : (frontendCandidates appDir cwd).find? fs.dirExists = none := by
      rw [List.find?_eq_none]
      intro x hx
      obtain ⟨k, hk, hget⟩ := List.getElem_of_mem hx
      have : fs.dirExists ((frontendCandidates appDir cwd).getD k "") = false :=
        hall k (by omega)
      rw [List.getD_eq_getElem?_getD, List.getElem?_eq_getElem hk, hget] at this
      simpa using this
    rw [resolve_probe_eq_find appDir cwd fs, hnone]

/-- Claim C1 witness: with appDir "APP" and cwd "CWD", a filesystem in which
only the third candidate CWD/frontend/dist exists resolves to exactly that
directory. -/
theorem c1_probe_order_witness :
    resolveFrontendUrl ⟨none, none⟩ "APP" "CWD"
        ⟨fun s => s == "CWD/frontend/dist", fun _ => true⟩ =
      checkIndexHtml ⟨fun s => s == "CWD/frontend/dist", fun _ => true⟩
        ((frontendCandidates "APP" "CWD").getD 2 "") :=
  (c1_probe_order "APP" "CWD"
      ⟨fun s => s == "CWD/frontend/dist", fun _ => true⟩).1 2
    (by omega) (by decide)
    (by decide)

/-- Claim C4: a navigation is intercepted and handed to the OS default
handler exactly when it is on the main frame, of type link clicked, and its
URL scheme is http or https; every other navigation proceeds inside the
embedded renderer. -/
theorem c4_navigation_policy (scheme : String) (ty : NavigationType)
    (isMainFrame : Bool) :
    (acceptNavigationRequest scheme ty isMainFrame = NavDecision.interceptExternal ↔
      (isMainFrame = true ∧ ty = NavigationType.linkClicked ∧
        (scheme = "http" ∨ scheme = "https"))) ∧
    (acceptNavigationRequest scheme ty isMainFrame ≠ NavDecision.interceptExternal →
      acceptNavigationRequest scheme ty isMainFrame = NavDecision.proceedInRenderer) := by
  constructor
  · cases isMainFrame <;> cases ty <;> simp [acceptNavigationRequest]
    tauto
  · intro h
    cases hd : acceptNavigationRequest scheme ty isMainFrame
    · exact absurd hd h
    · rfl

/-- Claim C9: the context menu lists Back, Forward, Reload, Open Link in
External Browser, Copy, View Source, Inspect Element in this fixed order,
each present exactly when its capability holds, with a separator after the
Back Forward Reload group exactly when that group is non-empty and a link or
a selection is present, a separator before View Source exactly when the menu
so far is non-empty, and a separator before Inspect Element exactly when the
menu so far is non-empty; with only a link present the menu is exactly the
external-link entry with no leading separator. -/
theorem c9_context_menu (c : MenuCaps) :
    (buildContextMenu c =
      (let group1 : List MenuEntry :=
        (if c.canBack then [MenuEntry.back] else []) ++
        (if c.canForward then [MenuEntry.forward] else []) ++
        (if c.canReload then [MenuEntry.reload] else [])
      let custom : List MenuEntry :=
        (if c.linkUrl.isEmpty then [] else [MenuEntry.openLinkExternal c.linkUrl]) ++
        (if c.selectedText.isEmpty then [] else [MenuEntry.copyText c.selectedText])
      let m1 := group1 ++
        (if group1 ≠ [] ∧ custom ≠ [] then [MenuEntry.separator] else []) ++ custom
      let m2 := m1 ++
        (if c.canViewSource then
          (if m1 ≠ [] then [MenuEntry.separator] else []) ++ [MenuEntry.viewSource]
        else [])
      m2 ++
        (if c.canInspect then
          (if m2 ≠ [] then [MenuEntry.separator] else []) ++ [MenuEntry.inspectElement]
        else []))) ∧
    buildContextMenu ⟨false, false, false, "http://a", "", false, false⟩ =
      [MenuEntry.openLinkExternal "http://a"] := by
  constructor
  · obtain ⟨cb, cf, cr, lu, st, vs, ins⟩ := c
    cases cb <;> cases cf <;> cases cr <;> cases vs <;> cases ins <;>
      cases hl : lu.isEmpty <;> cases hs : st.isEmpty <;>
        simp [buildContextMenu, hl, hs]
  · rfl

end Taqyon
